import Mathlib

/-
Verification development for the QuestAPI session core.

The embedding follows src/api/session_manager.py (the session lifecycle
manager), src/api/scraper/scraper.py (the driver registry, session
recreation and second-factor logic it cites) and src/api/database/db.py
(the course cache).  Tokens are modelled as plain strings: the source
stores them as strings inside TokenManager and SessionManager, and
TokenManager.get_token is the identity on the stored string.

The Scraper revision that session_manager.py actually drives (a Scraper
taking a plain string token, exposing an instance-level last_accessed
timestamp and a two-argument sign_in) is not present under src/: the
src/api/scraper/scraper.py revision expects a TokenManager and a
three-argument sign_in.  Where the behaviour of that missing revision
decides a claim, the definitions below model it from the spec and say so
in their doc comments.

Python dicts are embedded as association lists with dict semantics:
insertion replaces the value of an existing key in place and appends a
new key at the end; deletion removes the key; lookup returns the first
(unique, for a well-formed dict) binding.
-/

namespace QuestAPI

abbrev Token := String

/-- Python dict assignment d[k] = v: replace in place if the key is
present, append otherwise. -/
def dictInsert {α β : Type} [DecidableEq α] (k : α) (v : β) (l : List (α × β)) :
    List (α × β) :=
  if l.any (fun p => decide (p.1 = k)) then
    l.map (fun p => if p.1 = k then (k, v) else p)
  else l ++ [(k, v)]

/-- Python del d[k]: drop the binding for the key. -/
def dictRemove {α β : Type} [DecidableEq α] (k : α) (l : List (α × β)) :
    List (α × β) :=
  l.filter (fun p => decide (p.1 ≠ k))

/-- Python d.get(k): the first binding for the key, if any. -/
def dictGet {α β : Type} [DecidableEq α] (k : α) (l : List (α × β)) : Option β :=
  (l.find? (fun p => decide (p.1 = k))).map Prod.snd

/-- Python k in d. -/
def hasKey {α β : Type} [DecidableEq α] (k : α) (l : List (α × β)) : Bool :=
  l.any (fun p => decide (p.1 = k))

/-- A section row of the course model
(src/api/database/models/course_info_model.py, class Section). -/
structure Sec where
  section_type : String
  section_number : String
  location : String
  instructor : String
deriving DecidableEq

def Sec.get_section_name (s : Sec) : String :=
  s.section_type ++ " " ++ s.section_number

def Sec.get_section_info (s : Sec) : String × List String :=
  (s.get_section_name, [s.location, s.instructor])

/-- A course row (course_info_model.py, class Course).  The primary key
is the (term, subject, code) triple.  A course stored with no sections is
the NoResults sentinel written by the search error path. -/
structure Course where
  term : String
  subject : String
  code : String
  sections : List Sec
deriving DecidableEq

/-- Course.get_sections: the mapping from section label to
[location, instructor]. -/
def Course.get_sections (c : Course) : List (String × List String) :=
  c.sections.map Sec.get_section_info

/-- db.get_course_info: the first row matching the key triple, if any
(src/api/database/db.py). -/
def get_course_info (db : List Course) (term subject code : String) :
    Option Course :=
  db.find? (fun c => decide (c.term = term ∧ c.subject = subject ∧ c.code = code))

/-- db.upsert_course_info: session.add plus commit.  Adding a row whose
primary key already exists fails the commit with an IntegrityError, which
db.py swallows, so the store is unchanged in that case; otherwise the row
is appended (src/api/database/db.py). -/
def upsert_course_info (db : List Course) (c : Course) : List Course :=
  if db.any (fun c0 =>
      decide (c0.term = c.term ∧ c0.subject = c.subject ∧ c0.code = c.code)) then
    db
  else db ++ [c]

/-- Modelled from the spec: secrets.token_urlsafe(16) as one draw from an
entropy source, distinct draws giving distinct opaque strings. -/
def token_urlsafe (draw : Nat) : Token :=
  "urlsafe-" ++ toString draw

/-- Python evaluates a def-site default argument once, when the function
object is created.  SessionManager.__init__(self, token=secrets.token_urlsafe(16))
therefore draws its default token exactly once at module load
(src/api/session_manager.py line 30); every no-argument construction
reuses this same string. -/
def sm_default_token : Token := token_urlsafe 0

/-- The same def-site default for TokenManager.__init__
(src/api/token_manager.py line 17), drawn once at module load. -/
def tm_default_token : Token := token_urlsafe 1

/-- The Resource Handle as session_manager.py uses it.  Modelled from the
spec: the spec's Resource Handle is a token plus a last-access timestamp,
owning one external driver; driverId names the underlying WebDriver in
the process-wide registry. -/
structure ScraperH where
  token : Token
  driverId : Nat
  last_accessed : Int
deriving DecidableEq

/-- The process-wide mutable state: the known-users map of
session_manager.py, the Scraper.driver_list registry and the set of
WebDriver instances that have been created and not quit
(src/api/scraper/scraper.py), the fresh-driver counter, and the course
cache (src/api/database/db.py). -/
structure SysState where
  known_users : List (String × Token)
  driver_list : List (Token × Nat)
  liveDrivers : List Nat
  nextDriver : Nat
  courseDb : List Course
deriving DecidableEq

/-- One SessionManager instance: token, optional scraper, active flag and
whether its heartbeat task is running (src/api/session_manager.py). -/
structure Session where
  token : Token
  scraper : Option ScraperH
  active : Bool
  heartbeat : Bool
deriving DecidableEq

/-- SessionManager.__init__: no scraper, inactive, no heartbeat; the
token defaults to the module-load default draw when none is passed
(src/api/session_manager.py lines 30-35). -/
def SessionManager_new (tok : Option Token) : Session :=
  { token := tok.getD sm_default_token
    scraper := none
    active := false
    heartbeat := false }

/-- TokenManager.__init__ under the same def-site default semantics
(src/api/token_manager.py lines 17-18). -/
def TokenManager_new (tok : Option Token) : Token :=
  tok.getD tm_default_token

/-- Modelled from the spec: a constructor that draws a fresh token on
every call, which is what the spec's token-issuance sentence requires. -/
def SessionManager_new_fresh (draw : Nat) : Session :=
  { token := token_urlsafe draw
    scraper := none
    active := false
    heartbeat := false }

/-- Errors crossing the session layer: SessionException
(session_manager.py), websockets SecurityError, and the scraper's
UserAuthenticationException (scraper.py). -/
inductive SMErr
  | sessionErr (msg : String)
  | securityErr (msg : String)
  | authErr (msg : String)
deriving DecidableEq

/-- session_manager.py prune_interval = 300 (seconds): the idle window. -/
def prune_interval : Int := 300

/-- Scraper.__ini_driver: create a fresh WebDriver and register it in the
process-wide driver registry under the session token, overwriting any
previous registration for that token (src/api/scraper/scraper.py lines
67-89, self.driver_list[token] = driver). -/
def ini_driver (st : SysState) (tk : Token) : Nat × SysState :=
  (st.nextDriver,
   { st with
      driver_list := dictInsert tk st.nextDriver st.driver_list
      liveDrivers := st.nextDriver :: st.liveDrivers
      nextDriver := st.nextDriver + 1 })

/-- Scraper.delete_session: quit the registered driver for the token and
drop the registry entry; a no-op when no driver is registered
(src/api/scraper/scraper.py lines 256-265). -/
def delete_session (st : SysState) (tk : Token) : SysState :=
  match dictGet tk st.driver_list with
  | some d =>
      { st with
         driver_list := dictRemove tk st.driver_list
         liveDrivers := st.liveDrivers.erase d }
  | none => st

/-- SessionManager.create_scraper: refuse when already active, otherwise
build a Scraper for the session token (registering a fresh driver) and
start the heartbeat task (src/api/session_manager.py lines 101-112).
Modelled from the spec for the handle's timestamp: the spec's Resource
Handle tracks last-access time from creation. -/
def create_scraper (st : SysState) (s : Session) (now : Int) :
    Except SMErr (SysState × Session × ScraperH) :=
  if s.active then .error (.sessionErr "Scraper already active")
  else
    let (d, st1) := ini_driver st s.token
    let h : ScraperH := { token := s.token, driverId := d, last_accessed := now }
    .ok (st1, { s with scraper := some h, active := true, heartbeat := true }, h)

/-- SessionManager.remove_scraper: when active, drop the session's
scraper, clear the active flag and cancel the heartbeat task; otherwise a
logged no-op (src/api/session_manager.py lines 200-209).  Modelled from
the spec for the release step: del self.scraper finalizes the missing
Scraper revision's handle, which releases the external resource the way
Scraper.delete_session and the spec's ResourceDriver.release do. -/
def remove_scraper (st : SysState) (s : Session) : SysState × Session :=
  if s.active then
    (delete_session st s.token,
     { s with scraper := none, active := false, heartbeat := false })
  else (st, s)

/-- The known-users update of SessionManager.handle_sign_out: delete the
first identity mapped to the given token, if any
(src/api/session_manager.py lines 190-193). -/
def ku_sign_out (ku : List (String × Token)) (tk : Token) :
    List (String × Token) :=
  match ku.find? (fun p => decide (p.2 = tk)) with
  | some p => dictRemove p.1 ku
  | none => ku

/-- SessionManager.handle_sign_out: delete the first identity mapped to
the session token from known_users, persist the removal, remove the
scraper when active, and clear the active flag
(src/api/session_manager.py lines 185-198). -/
def handle_sign_out (st : SysState) (s : Session) : SysState × Session :=
  let r := remove_scraper
    { st with known_users := ku_sign_out st.known_users s.token } s
  (r.1, { r.2 with active := false })

/-- What one heartbeat iteration did. -/
inductive Tick
  | exited
  | slept
deriving DecidableEq

/-- One iteration of SessionManager.__heartbeat after its sleep: exit
when no scraper is set; evict the scraper and exit when it has been idle
for more than prune_interval seconds; otherwise sleep again
(src/api/session_manager.py lines 54-81).  Modelled from the spec for the
timestamp read: the missing Scraper revision exposes last_accessed as an
instance attribute. -/
def heartbeat_tick (st : SysState) (s : Session) (now : Int) :
    SysState × Session × Tick :=
  match s.scraper with
  | none => (st, { s with heartbeat := false }, .exited)
  | some h =>
      if h.last_accessed < now - prune_interval then
        let r := remove_scraper st s
        (r.1, { r.2 with heartbeat := false }, .exited)
      else (st, s, .slept)

/-- Scraper.recreate_session: refresh the last-access time, take the
registered driver for the token when the registry holds one (keeping the
current driver otherwise), replay persisted cookies, navigate, and check
liveness: raise UserAuthenticationException when the remote login has
lapsed (src/api/scraper/scraper.py lines 116-132).  The signedOn argument
is the outcome of the external verify_signed_on probe. -/
def recreate_session (st : SysState) (h : ScraperH) (now : Int)
    (signedOn : Bool) : Except SMErr ScraperH :=
  let h1 := { h with last_accessed := now }
  let h2 :=
    match dictGet h1.token st.driver_list with
    | some d => { h1 with driverId := d }
    | none => h1
  if signedOn then .ok h2
  else .error (.authErr "Session expired, sign in again")

/-- SessionManager.wake_scraper: return at once when already active, else
create a new scraper and recreate its remote session; a
UserAuthenticationException from recreation triggers handle_sign_out and
is rethrown as a SecurityError (src/api/session_manager.py lines
88-99). -/
def wake_scraper (st : SysState) (s : Session) (now : Int) (signedOn : Bool) :
    SysState × Session × Except SMErr Unit :=
  if s.active then (st, s, .ok ())
  else
    match create_scraper st s now with
    | .error e => (st, s, .error e)
    | .ok (st1, s1, h) =>
        match recreate_session st1 h now signedOn with
        | .ok h2 => (st1, { s1 with scraper := some h2 }, .ok ())
        | .error (.authErr m) =>
            let r := handle_sign_out st1 s1
            (r.1, r.2, .error (.securityErr m))
        | .error e => (st1, s1, .error e)

/-- SessionManager.reconnect_user: succeed with the existing token when
it appears among the known-users values, fail with the SecurityError for
an unauthorized token otherwise; no state is touched either way
(src/api/session_manager.py lines 114-125). -/
def reconnect_user (st : SysState) (s : Session) :
    SysState × Session × Except SMErr Token :=
  (st, s,
   if st.known_users.any (fun p => decide (p.2 = s.token)) then .ok s.token
   else .error (.securityErr "Invalid token"))

/-- Outcome of the external primary-authentication step
(Scraper.sign_in): already fully signed in via cookies, a second-factor
challenge code, or a failure that raises UserAuthenticationException
(src/api/scraper/scraper.py lines 134-180). -/
inductive SignInResult
  | alreadyAuthed
  | duoRequired (code : String)
  | failed
deriving DecidableEq

/-- Outcome of the external second-factor step (Scraper.duo_auth): the
challenge is completed, or the bounded wait times out and
UserAuthenticationException is raised (src/api/scraper/scraper.py lines
182-206). -/
inductive DuoResult
  | passed
  | timedOut
deriving DecidableEq

/-- The tail of SessionManager.create_user after authentication
succeeded: record the identity in known_users (and persist it) when
remember_me is set, then return the token (src/api/session_manager.py
lines 149-153). -/
def finish_create (st : SysState) (s : Session) (user : String)
    (remember_me : Bool) : SysState × Session × Except SMErr Token :=
  if remember_me then
    ({ st with known_users := dictInsert user s.token st.known_users }, s,
     .ok s.token)
  else (st, s, .ok s.token)

/-- SessionManager.create_user: a remembered identity takes its recorded
token and delegates to reconnect_user; otherwise a scraper is created and
primary authentication runs, possibly followed by the second factor.  A
UserAuthenticationException from either step triggers handle_sign_out and
is rethrown as a SecurityError (src/api/session_manager.py lines
127-156). -/
def create_user (st : SysState) (s : Session) (user : String)
    (remember_me : Bool) (now : Int) (signIn : SignInResult)
    (duo : DuoResult) : SysState × Session × Except SMErr Token :=
  match dictGet user st.known_users with
  | some tk =>
      let s1 := { s with token := tk }
      reconnect_user st s1
  | none =>
      match create_scraper st s now with
      | .error e => (st, s, .error e)
      | .ok (st1, s1, _h) =>
          match signIn with
          | .failed =>
              let r := handle_sign_out st1 s1
              (r.1, r.2,
               .error (.securityErr "Sign in failed, check username and password"))
          | .alreadyAuthed => finish_create st1 s1 user remember_me
          | .duoRequired _code =>
              match duo with
              | .timedOut =>
                  let r := handle_sign_out st1 s1
                  (r.1, r.2, .error (.securityErr "Duo Auth timed out"))
              | .passed => finish_create st1 s1 user remember_me

/-- Outcome of the external scrape (schedule.search_classes): a course
with its sections, an explicit empty result raising ScheduleException, or
an unexpected WebDriverException from the driver. -/
inductive ScrapeOutcome
  | found (c : Course)
  | noResults
  | webFault
deriving DecidableEq

instance {ε α : Type} [DecidableEq ε] [DecidableEq α] : DecidableEq (Except ε α) := fun
  | .ok a, .ok b =>
      match decEq a b with
      | isTrue h => isTrue (h ▸ rfl)
      | isFalse h => isFalse (fun hh => h (Except.ok.inj hh))
  | .ok _, .error _ => isFalse (fun hh => Except.noConfusion hh)
  | .error _, .ok _ => isFalse (fun hh => Except.noConfusion hh)
  | .error e, .error f =>
      match decEq e f with
      | isTrue h => isTrue (h ▸ rfl)
      | isFalse h => isFalse (fun hh => h (Except.error.inj hh))

/-- Result of one SEARCH command at the session layer: final state, the
returned sections or the raised error, and whether the external resource
path (scraper wake plus scrape) was entered. -/
structure SearchResult where
  st : SysState
  s : Session
  outcome : Except SMErr (List (String × List String))
  resource_called : Bool
deriving DecidableEq

/-- SessionManager.handle_search_classes: cache-first lookup; on a miss,
wake the scraper and scrape, then upsert the result.  A WebDriverException
becomes SessionException "Unexpected Error: Could not search classes"
with nothing stored; a ScheduleException stores the NoResults sentinel
(a Course with no sections) and becomes SessionException
"No results found" (src/api/session_manager.py lines 158-183). -/
def handle_search_classes (st : SysState) (s : Session)
    (term subject class_number : String) (now : Int) (signedOn : Bool)
    (scrape : ScrapeOutcome) : SearchResult :=
  match get_course_info st.courseDb term subject class_number with
  | some c => ⟨st, s, .ok c.get_sections, false⟩
  | none =>
      match wake_scraper st s now signedOn with
      | (st1, s1, .error e) => ⟨st1, s1, .error e, true⟩
      | (st1, s1, .ok _) =>
          match scrape with
          | .found c =>
              ⟨{ st1 with courseDb := upsert_course_info st1.courseDb c }, s1,
               .ok c.get_sections, true⟩
          | .noResults =>
              ⟨{ st1 with
                  courseDb := upsert_course_info st1.courseDb
                    { term := term, subject := subject, code := class_number,
                      sections := [] } },
               s1, .error (.sessionErr "No results found"), true⟩
          | .webFault =>
              ⟨st1, s1,
               .error (.sessionErr "Unexpected Error: Could not search classes"),
               true⟩

/-- A wire response envelope (src/api/websocket.py,
send_websocket_response): a status code and a payload, the payload being
either serialized sections or a message string. -/
inductive Payload
  | sections (rows : List (String × List String))
  | msg (m : String)
deriving DecidableEq

structure Envelope where
  status : Int
  payload : Payload
deriving DecidableEq

/-- Modelled from the spec and src/tests/test_websocket.py: the protocol
layer's SEARCH dispatch over the SessionManager (the websocket revision
driving SessionManager is absent from src/).  A successful search is sent
as a SUCCESS (1) envelope with the sections; a SessionException is sent
as an ERROR (-1) envelope carrying the exception message; a SecurityError
closes the connection instead of producing an envelope. -/
def search_envelope (r : SearchResult) : Option Envelope :=
  match r.outcome with
  | .ok rows => some ⟨1, .sections rows⟩
  | .error (.sessionErr m) => some ⟨-1, .msg m⟩
  | .error _ => none

/-! ### Dictionary lemmas -/

theorem hasKey_eq_false_iff {α β : Type} [DecidableEq α] {k : α}
    {l : List (α × β)} : hasKey k l = false ↔ ∀ p ∈ l, p.1 ≠ k := by
  simp [hasKey]

theorem nodup_keys_dictInsert {α β : Type} [DecidableEq α] {l : List (α × β)}
    (h : (l.map Prod.fst).Nodup) (k : α) (v : β) :
    ((dictInsert k v l).map Prod.fst).Nodup := by
  unfold dictInsert
  split
  · have : (l.map (fun p => if p.1 = k then (k, v) else p)).map Prod.fst =
        l.map Prod.fst := by
      rw [List.map_map]
      apply List.map_congr_left
      intro p _
      by_cases hp : p.1 = k
      · simp [hp]
      · simp [hp]
    rw [this]
    exact h
  · rename_i hany
    have hnot : ∀ p ∈ l, p.1 ≠ k := by
      intro p hp
      have := List.any_eq_false.mp (Bool.not_eq_true _ ▸ hany) p hp
      simpa using this
    rw [List.map_append]
    simp only [List.map_cons, List.map_nil]
    rw [List.nodup_append]
    refine ⟨h, List.nodup_singleton k, ?_⟩
    intro a ha hb
    simp only [List.mem_singleton] at hb
    subst hb
    rcases List.mem_map.mp ha with ⟨p, hp, rfl⟩
    exact hnot p hp rfl

theorem nodup_keys_dictRemove {α β : Type} [DecidableEq α] {l : List (α × β)}
    (h : (l.map Prod.fst).Nodup) (k : α) :
    ((dictRemove k l).map Prod.fst).Nodup := by
  unfold dictRemove
  exact h.sublist (List.Sublist.map Prod.fst (List.filter_sublist l))

theorem dictGet_dictRemove_self {α β : Type} [DecidableEq α] (k : α)
    (l : List (α × β)) : dictGet k (dictRemove k l) = none := by
  unfold dictGet dictRemove
  cases hf : (l.filter (fun p => decide (p.1 ≠ k))).find? (fun p => decide (p.1 = k)) with
  | none => simp
  | some p =>
      have h1 := List.find?_some hf
      have h2 := List.mem_filter.mp (List.mem_of_find?_eq_some hf)
      simp only [decide_eq_true_eq] at h1
      simp only [decide_eq_true_eq] at h2
      exact absurd h1 h2.2

theorem dictGet_dictInsert_self {α β : Type} [DecidableEq α] (k : α) (v : β)
    (l : List (α × β)) : dictGet k (dictInsert k v l) = some v := by
  unfold dictInsert
  split
  · rename_i hany
    induction l with
    | nil => simp at hany
    | cons p l ih =>
        by_cases hp : p.1 = k
        · simp [dictGet, List.find?, hp]
        · have hany2 : l.any (fun p => decide (p.1 = k)) = true := by
            simp only [List.any_cons, Bool.or_eq_true, decide_eq_true_eq] at hany
            rcases hany with h | h
            · exact absurd h hp
            · exact h
          have := ih hany2
          simpa [dictGet, List.find?, hp] using this
  · rename_i hany
    induction l with
    | nil => simp [dictGet, List.find?]
    | cons p l ih =>
        have hp : ¬(p.1 = k) := by
          intro hpk
          exact hany (by simp [List.any_cons, hpk])
        have hany2 : ¬(l.any (fun p => decide (p.1 = k)) = true) := by
          intro hh
          exact hany (by simp [List.any_cons, hh])
        have := ih hany2
        simpa [dictGet, List.find?, hp] using this

theorem length_filter_le_one_of_nodup_keys {α β : Type} [DecidableEq α]
    {l : List (α × β)} (h : (l.map Prod.fst).Nodup) (k : α) :
    (l.filter (fun p => decide (p.1 = k))).length ≤ 1 := by
  induction l with
  | nil => simp
  | cons p l ih =>
      simp only [List.map_cons, List.nodup_cons] at h
      by_cases hp : p.1 = k
      · have hnil : l.filter (fun p => decide (p.1 = k)) = [] := by
          rw [List.filter_eq_nil_iff]
          intro q hq
          simp only [decide_eq_true_eq]
          intro hqk
          exact h.1 (hp ▸ hqk ▸ List.mem_map_of_mem Prod.fst hq)
        rw [List.filter_cons, if_pos (by simp [hp]), hnil]
        simp
      · rw [List.filter_cons, if_neg (by simp [hp])]
        exact ih h.2

/-! ### The registry invariant and its preservation -/

/-- The process-wide driver registry holds at most one entry per token:
its key list has no duplicates. -/
def wf_registry (st : SysState) : Prop :=
  (st.driver_list.map Prod.fst).Nodup

instance (st : SysState) : Decidable (wf_registry st) := by
  unfold wf_registry
  infer_instance

/-- The number of live WebDriver entries registered for a token. -/
def handle_count (st : SysState) (tk : Token) : Nat :=
  (st.driver_list.filter (fun p => decide (p.1 = tk))).length

theorem handle_count_le_one_of_wf {st : SysState} (h : wf_registry st)
    (tk : Token) : handle_count st tk ≤ 1 :=
  length_filter_le_one_of_nodup_keys h tk

theorem wf_ini_driver {st : SysState} (h : wf_registry st) (tk : Token) :
    wf_registry (ini_driver st tk).2 :=
  nodup_keys_dictInsert h tk st.nextDriver

theorem wf_delete_session {st : SysState} (h : wf_registry st) (tk : Token) :
    wf_registry (delete_session st tk) := by
  unfold delete_session
  split
  · exact nodup_keys_dictRemove h tk
  · exact h

theorem wf_remove_scraper {st : SysState} (h : wf_registry st) (s : Session) :
    wf_registry (remove_scraper st s).1 := by
  unfold remove_scraper
  split
  · exact wf_delete_session h s.token
  · exact h

theorem wf_registry_set_known_users (st : SysState) (ku : List (String × Token)) :
    wf_registry { st with known_users := ku } = wf_registry st :=
  rfl

theorem wf_handle_sign_out {st : SysState} (h : wf_registry st) (s : Session) :
    wf_registry (handle_sign_out st s).1 := by
  unfold handle_sign_out
  dsimp only
  apply wf_remove_scraper
  rw [wf_registry_set_known_users]
  exact h

theorem wf_heartbeat_tick {st : SysState} (h : wf_registry st) (s : Session)
    (now : Int) : wf_registry (heartbeat_tick st s now).1 := by
  unfold heartbeat_tick
  split
  · exact h
  · split
    · exact wf_remove_scraper h s
    · exact h

theorem create_scraper_ok_state {st : SysState} {s : Session} {now : Int}
    {st1 : SysState} {s1 : Session} {hh : ScraperH}
    (h : create_scraper st s now = .ok (st1, s1, hh)) :
    st1 = (ini_driver st s.token).2 := by
  unfold create_scraper at h
  split at h
  · exact absurd h (by simp)
  · injection h with h
    injection h with h1 h2
    exact h1.symm

theorem wf_create_scraper {st : SysState} (h : wf_registry st) (s : Session)
    (now : Int) {st1 : SysState} {s1 : Session} {hh : ScraperH}
    (hc : create_scraper st s now = .ok (st1, s1, hh)) : wf_registry st1 := by
  rw [create_scraper_ok_state hc]
  exact wf_ini_driver h s.token

theorem wf_wake_scraper {st : SysState} (h : wf_registry st) (s : Session)
    (now : Int) (b : Bool) : wf_registry (wake_scraper st s now b).1 := by
  unfold wake_scraper
  split
  · exact h
  · split
    · exact h
    · rename_i st1 s1 hh heq
      have h1 : wf_registry st1 := wf_create_scraper h s now heq
      split
      · exact h1
      · exact wf_handle_sign_out h1 s1
      · exact h1

theorem wf_finish_create {st : SysState} (h : wf_registry st) (s : Session)
    (user : String) (r : Bool) : wf_registry (finish_create st s user r).1 := by
  unfold finish_create
  split
  · exact h
  · exact h

theorem wf_create_user {st : SysState} (h : wf_registry st) (s : Session)
    (user : String) (remember : Bool) (now : Int) (si : SignInResult)
    (duo : DuoResult) :
    wf_registry (create_user st s user remember now si duo).1 := by
  unfold create_user reconnect_user
  split
  · exact h
  · split
    · exact h
    · rename_i st1 s1 hh heq
      have h1 : wf_registry st1 := wf_create_scraper h s now heq
      split
      · exact wf_handle_sign_out h1 s1
      · exact wf_finish_create h1 s1 user remember
      · split
        · exact wf_handle_sign_out h1 s1
        · exact wf_finish_create h1 s1 user remember

theorem wf_handle_search_classes {st : SysState} (h : wf_registry st)
    (s : Session) (term subject cn : String) (now : Int) (b : Bool)
    (sc : ScrapeOutcome) :
    wf_registry (handle_search_classes st s term subject cn now b sc).st := by
  unfold handle_search_classes
  split
  · exact h
  · have hw := wf_wake_scraper h s now b
    split
    · rename_i st1 s1 e heq
      have : st1 = (wake_scraper st s now b).1 := by rw [heq]
      rw [this] at *
      exact hw
    · rename_i st1 s1 u heq
      have hst1 : wf_registry st1 := by
        have : st1 = (wake_scraper st s now b).1 := by rw [heq]
        rw [this]
        exact hw
      split
      · exact hst1
      · exact hst1
      · exact hst1

/-- One operation of the session core acting on the process-wide state:
scraper creation (either outcome), eviction, a heartbeat iteration, wake,
reconnect, sign-out, user creation, and search. -/
inductive Step : SysState → SysState → Prop
  | create_ok : ∀ st s now st1 s1 h,
      create_scraper st s now = .ok (st1, s1, h) → Step st st1
  | create_err : ∀ st s now e,
      create_scraper st s now = .error e → Step st st
  | evict : ∀ st s, Step st (remove_scraper st s).1
  | tick : ∀ st s now, Step st (heartbeat_tick st s now).1
  | wake : ∀ st s now b, Step st (wake_scraper st s now b).1
  | reconnect : ∀ st s, Step st (reconnect_user st s).1
  | sign_out_op : ∀ st s, Step st (handle_sign_out st s).1
  | create_user_op : ∀ st s u r now si duo,
      Step st (create_user st s u r now si duo).1
  | search : ∀ st s t su cn now b sc,
      Step st (handle_search_classes st s t su cn now b sc).st

/-- C1: for every token at most one live Resource Handle (WebDriver entry
in the process-wide driver registry) exists, and every operation of the
session core (create, reconnect, wake, evict, sign-out, heartbeat,
search) preserves this: no operation leaves two live handles registered
for the same token. -/
theorem c1_at_most_one_handle_per_token {st st' : SysState}
    (hstep : Step st st') (hwf : wf_registry st) :
    wf_registry st' ∧ ∀ tk, handle_count st' tk ≤ 1 := by
  have hwf' : wf_registry st' := by
    cases hstep with
    | create_ok s now st1 s1 h heq => exact wf_create_scraper hwf s now heq
    | create_err s now e heq => exact hwf
    | evict s => exact wf_remove_scraper hwf s
    | tick s now => exact wf_heartbeat_tick hwf s now
    | wake s now b => exact wf_wake_scraper hwf s now b
    | reconnect s => exact hwf
    | sign_out_op s => exact wf_handle_sign_out hwf s
    | create_user_op s u r now si duo => exact wf_create_user hwf s u r now si duo
    | search s t su cn now b sc => exact wf_handle_search_classes hwf s t su cn now b sc
  exact ⟨hwf', fun tk => handle_count_le_one_of_wf hwf' tk⟩

def c1_state : SysState :=
  { known_users := [("alice", "tokA")]
    driver_list := [("tokA", 0)]
    liveDrivers := [0]
    nextDriver := 1
    courseDb := [] }

def c1_session : Session :=
  { token := "tokA", scraper := none, active := false, heartbeat := false }

theorem c1_at_most_one_handle_per_token_witness :
    wf_registry (heartbeat_tick c1_state c1_session 1000).1 ∧
      handle_count (heartbeat_tick c1_state c1_session 1000).1 "tokA" ≤ 1 :=
  ⟨(c1_at_most_one_handle_per_token (Step.tick c1_state c1_session 1000)
      (by decide)).1,
   (c1_at_most_one_handle_per_token (Step.tick c1_state c1_session 1000)
      (by decide)).2 "tokA"⟩

/-! ### Characterization lemmas for the operations -/

theorem remove_scraper_of_active {st : SysState} {s : Session}
    (hact : s.active = true) :
    remove_scraper st s =
      (delete_session st s.token,
       { s with scraper := none, active := false, heartbeat := false }) := by
  unfold remove_scraper
  rw [if_pos hact]

theorem delete_session_known_users (st : SysState) (tk : Token) :
    (delete_session st tk).known_users = st.known_users := by
  unfold delete_session
  split <;> rfl

theorem delete_session_courseDb (st : SysState) (tk : Token) :
    (delete_session st tk).courseDb = st.courseDb := by
  unfold delete_session
  split <;> rfl

theorem delete_session_nextDriver (st : SysState) (tk : Token) :
    (delete_session st tk).nextDriver = st.nextDriver := by
  unfold delete_session
  split <;> rfl

theorem delete_session_get_none (st : SysState) (tk : Token) :
    dictGet tk (delete_session st tk).driver_list = none := by
  unfold delete_session
  cases hr : dictGet tk st.driver_list with
  | none => exact hr
  | some d => exact dictGet_dictRemove_self tk st.driver_list

theorem wake_scraper_signed_on {st : SysState} {s : Session} {now : Int}
    (hinact : s.active = false) :
    wake_scraper st s now true =
      ({ st with
          driver_list := dictInsert s.token st.nextDriver st.driver_list
          liveDrivers := st.nextDriver :: st.liveDrivers
          nextDriver := st.nextDriver + 1 },
       { s with
          scraper := some
            { token := s.token, driverId := st.nextDriver, last_accessed := now }
          active := true
          heartbeat := true },
       .ok ()) := by
  unfold wake_scraper create_scraper ini_driver recreate_session
  rw [if_neg (by simp [hinact]), if_neg (by simp [hinact])]
  dsimp only
  rw [dictGet_dictInsert_self]
  rfl

theorem wake_scraper_expired {st : SysState} {s : Session} {now : Int}
    (hinact : s.active = false) :
    wake_scraper st s now false =
      (let st1 : SysState :=
        { st with
           driver_list := dictInsert s.token st.nextDriver st.driver_list
           liveDrivers := st.nextDriver :: st.liveDrivers
           nextDriver := st.nextDriver + 1 }
       let s1 : Session :=
        { s with
           scraper := some
             { token := s.token, driverId := st.nextDriver, last_accessed := now }
           active := true
           heartbeat := true }
       let r := handle_sign_out st1 s1
       (r.1, r.2, .error (.securityErr "Session expired, sign in again"))) := by
  unfold wake_scraper create_scraper ini_driver recreate_session
  rw [if_neg (by simp [hinact]), if_neg (by simp [hinact])]
  dsimp only
  rw [dictGet_dictInsert_self]
  rfl

theorem handle_sign_out_of_active {st : SysState} {s : Session}
    (hact : s.active = true) :
    handle_sign_out st s =
      (delete_session
        { st with known_users := ku_sign_out st.known_users s.token } s.token,
       { s with scraper := none, active := false, heartbeat := false }) := by
  unfold handle_sign_out
  dsimp only
  rw [remove_scraper_of_active hact]

theorem handle_sign_out_of_inactive {st : SysState} {s : Session}
    (hinact : s.active = false) :
    handle_sign_out st s =
      ({ st with known_users := ku_sign_out st.known_users s.token },
       { s with active := false }) := by
  unfold handle_sign_out remove_scraper
  rw [if_neg (by simp [hinact])]

theorem handle_sign_out_get_none {st : SysState} {s : Session}
    (hact : s.active = true) :
    dictGet s.token (handle_sign_out st s).1.driver_list = none := by
  rw [handle_sign_out_of_active hact]
  exact delete_session_get_none _ s.token

theorem ku_sign_out_no_entry {ku : List (String × Token)} {tk : Token}
    (hone : ∀ p ∈ ku, ∀ q ∈ ku, p.2 = tk → q.2 = tk → p = q) :
    ∀ p ∈ ku_sign_out ku tk, p.2 ≠ tk := by
  unfold ku_sign_out
  cases hf : ku.find? (fun p => decide (p.2 = tk)) with
  | none =>
      intro p hp
      have := List.find?_eq_none.mp hf p hp
      simpa using this
  | some p0 =>
      have hp0 : p0.2 = tk := by
        have := List.find?_some hf
        simpa using this
      have hp0mem : p0 ∈ ku := List.mem_of_find?_eq_some hf
      intro q hq hq2
      have hq' := List.mem_filter.mp hq
      have hqku : q ∈ ku := hq'.1
      have hqne : q.1 ≠ p0.1 := by simpa using hq'.2
      have : q = p0 := hone q hqku p0 hp0mem hq2 hp0
      exact hqne (by rw [this])

theorem ku_sign_out_of_no_entry {ku : List (String × Token)} {tk : Token}
    (h : ∀ p ∈ ku, p.2 ≠ tk) : ku_sign_out ku tk = ku := by
  unfold ku_sign_out
  cases hf : ku.find? (fun p => decide (p.2 = tk)) with
  | none => rfl
  | some p0 =>
      have hp0 : p0.2 = tk := by
        have := List.find?_some hf
        simpa using this
      exact absurd hp0 (h p0 (List.mem_of_find?_eq_some hf))

theorem session_set_active_false_eq (x : Session) (h : x.active = false) :
    { x with active := false } = x := by
  cases x
  cases h
  rfl

theorem create_scraper_of_inactive {st : SysState} {s : Session} {now : Int}
    (hinact : s.active = false) :
    create_scraper st s now =
      .ok ({ st with
              driver_list := dictInsert s.token st.nextDriver st.driver_list
              liveDrivers := st.nextDriver :: st.liveDrivers
              nextDriver := st.nextDriver + 1 },
           { s with
              scraper := some
                { token := s.token, driverId := st.nextDriver,
                  last_accessed := now }
              active := true
              heartbeat := true },
           { token := s.token, driverId := st.nextDriver,
             last_accessed := now }) := by
  unfold create_scraper ini_driver
  rw [if_neg (by simp [hinact])]

theorem handle_sign_out_courseDb (st : SysState) (s : Session) :
    (handle_sign_out st s).1.courseDb = st.courseDb := by
  unfold handle_sign_out remove_scraper
  dsimp only
  split
  · exact delete_session_courseDb _ s.token
  · rfl

theorem wake_scraper_courseDb (st : SysState) (s : Session) (now : Int)
    (b : Bool) : (wake_scraper st s now b).1.courseDb = st.courseDb := by
  unfold wake_scraper
  split
  · rfl
  · split
    · rfl
    · rename_i st1 s1 h heq
      have h1 : st1 = (ini_driver st s.token).2 := create_scraper_ok_state heq
      split
      · rw [h1]; rfl
      · rw [handle_sign_out_courseDb, h1]; rfl
      · rw [h1]; rfl

theorem search_miss_found {st : SysState} {s : Session} {now : Int}
    {term subject cn : String} {c : Course}
    (hinact : s.active = false)
    (hmiss : get_course_info st.courseDb term subject cn = none) :
    handle_search_classes st s term subject cn now true (.found c) =
      ⟨{ st with
          driver_list := dictInsert s.token st.nextDriver st.driver_list
          liveDrivers := st.nextDriver :: st.liveDrivers
          nextDriver := st.nextDriver + 1
          courseDb := upsert_course_info st.courseDb c },
        { s with
          scraper := some
            { token := s.token, driverId := st.nextDriver, last_accessed := now }
          active := true
          heartbeat := true },
        .ok c.get_sections, true⟩ := by
  unfold handle_search_classes
  rw [hmiss]
  dsimp only
  rw [wake_scraper_signed_on hinact]

theorem search_miss_noResults {st : SysState} {s : Session} {now : Int}
    {term subject cn : String}
    (hinact : s.active = false)
    (hmiss : get_course_info st.courseDb term subject cn = none) :
    handle_search_classes st s term subject cn now true .noResults =
      ⟨{ st with
          driver_list := dictInsert s.token st.nextDriver st.driver_list
          liveDrivers := st.nextDriver :: st.liveDrivers
          nextDriver := st.nextDriver + 1
          courseDb := upsert_course_info st.courseDb
            { term := term, subject := subject, code := cn, sections := [] } },
        { s with
          scraper := some
            { token := s.token, driverId := st.nextDriver, last_accessed := now }
          active := true
          heartbeat := true },
        .error (.sessionErr "No results found"), true⟩ := by
  unfold handle_search_classes
  rw [hmiss]
  dsimp only
  rw [wake_scraper_signed_on hinact]

theorem search_miss_fault {st : SysState} {s : Session} {now : Int}
    {term subject cn : String}
    (hinact : s.active = false)
    (hmiss : get_course_info st.courseDb term subject cn = none) :
    handle_search_classes st s term subject cn now true .webFault =
      ⟨{ st with
          driver_list := dictInsert s.token st.nextDriver st.driver_list
          liveDrivers := st.nextDriver :: st.liveDrivers
          nextDriver := st.nextDriver + 1 },
        { s with
          scraper := some
            { token := s.token, driverId := st.nextDriver, last_accessed := now }
          active := true
          heartbeat := true },
        .error (.sessionErr "Unexpected Error: Could not search classes"), true⟩ := by
  unfold handle_search_classes
  rw [hmiss]
  dsimp only
  rw [wake_scraper_signed_on hinact]

theorem heartbeat_tick_idle_evicts {st : SysState} {s : Session}
    {h : ScraperH} {now : Int} (hs : s.scraper = some h)
    (hact : s.active = true) (hidle : h.last_accessed < now - prune_interval) :
    heartbeat_tick st s now =
      (delete_session st s.token,
       { s with scraper := none, active := false, heartbeat := false },
       .exited) := by
  unfold heartbeat_tick
  rw [hs]
  dsimp only
  rw [if_pos hidle, remove_scraper_of_active hact]

/-- C2: a session whose Resource Handle has seen no activity for more
than the idle window (300 seconds) is evicted by the heartbeat
iteration, which exits: the session keeps its token-registry
(known-users) entry and is left idle rather than destroyed, no driver
stays registered for the token, and the next cache-miss search
transparently recreates the Resource Handle and succeeds (idempotent
wake). -/
theorem c2_idle_eviction_then_wake (st : SysState) (s : Session)
    (h : ScraperH) (now now2 : Int) (term subject code : String) (c : Course)
    (hs : s.scraper = some h) (hact : s.active = true)
    (hidle : h.last_accessed < now - prune_interval)
    (hmiss : get_course_info st.courseDb term subject code = none) :
    (heartbeat_tick st s now).2.2 = Tick.exited ∧
    (heartbeat_tick st s now).2.1.scraper = none ∧
    (heartbeat_tick st s now).2.1.active = false ∧
    (heartbeat_tick st s now).2.1.heartbeat = false ∧
    dictGet s.token (heartbeat_tick st s now).1.driver_list = none ∧
    (heartbeat_tick st s now).1.known_users = st.known_users ∧
    (handle_search_classes (heartbeat_tick st s now).1
        (heartbeat_tick st s now).2.1 term subject code now2 true
        (.found c)).s.active = true ∧
    (handle_search_classes (heartbeat_tick st s now).1
        (heartbeat_tick st s now).2.1 term subject code now2 true
        (.found c)).s.scraper =
      some { token := s.token,
             driverId := (heartbeat_tick st s now).1.nextDriver,
             last_accessed := now2 } ∧
    (handle_search_classes (heartbeat_tick st s now).1
        (heartbeat_tick st s now).2.1 term subject code now2 true
        (.found c)).outcome = .ok c.get_sections := by
  rw [heartbeat_tick_idle_evicts hs hact hidle]
  have hmiss2 : get_course_info (delete_session st s.token).courseDb
      term subject code = none := by
    rw [delete_session_courseDb]
    exact hmiss
  rw [search_miss_found rfl hmiss2]
  exact ⟨rfl, rfl, rfl, rfl, delete_session_get_none st s.token,
    delete_session_known_users st s.token, rfl, rfl, rfl⟩

def c2_state : SysState :=
  { known_users := [("alice", "tokA")]
    driver_list := [("tokA", 0)]
    liveDrivers := [0]
    nextDriver := 1
    courseDb := [] }

def c2_session : Session :=
  { token := "tokA"
    scraper := some { token := "tokA", driverId := 0, last_accessed := 0 }
    active := true
    heartbeat := true }

def c2_course : Course :=
  { term := "1245", subject := "MATH", code := "239"
    sections := [{ section_type := "LEC", section_number := "001",
                   location := "MC 2065", instructor := "Prof X" }] }

theorem c2_idle_eviction_then_wake_witness :
    (heartbeat_tick c2_state c2_session 1000).2.2 = Tick.exited ∧
    (heartbeat_tick c2_state c2_session 1000).2.1.scraper = none ∧
    (heartbeat_tick c2_state c2_session 1000).2.1.active = false ∧
    (heartbeat_tick c2_state c2_session 1000).2.1.heartbeat = false ∧
    dictGet c2_session.token
      (heartbeat_tick c2_state c2_session 1000).1.driver_list = none ∧
    (heartbeat_tick c2_state c2_session 1000).1.known_users =
      c2_state.known_users ∧
    (handle_search_classes (heartbeat_tick c2_state c2_session 1000).1
        (heartbeat_tick c2_state c2_session 1000).2.1 "1245" "MATH" "239" 2000
        true (.found c2_course)).s.active = true ∧
    (handle_search_classes (heartbeat_tick c2_state c2_session 1000).1
        (heartbeat_tick c2_state c2_session 1000).2.1 "1245" "MATH" "239" 2000
        true (.found c2_course)).s.scraper =
      some { token := c2_session.token,
             driverId := (heartbeat_tick c2_state c2_session 1000).1.nextDriver,
             last_accessed := 2000 } ∧
    (handle_search_classes (heartbeat_tick c2_state c2_session 1000).1
        (heartbeat_tick c2_state c2_session 1000).2.1 "1245" "MATH" "239" 2000
        true (.found c2_course)).outcome = .ok c2_course.get_sections :=
  c2_idle_eviction_then_wake c2_state c2_session
    { token := "tokA", driverId := 0, last_accessed := 0 } 1000 2000
    "1245" "MATH" "239" c2_course rfl rfl (by decide) rfl

/-- The tokens obtained by two successive no-argument SessionManager
constructions in one process, under Python's def-site default-argument
semantics. -/
def py_two_session_tokens : Token × Token :=
  ((SessionManager_new none).token, (SessionManager_new none).token)

/-- The tokens the spec's token-issuance sentence requires for two
distinct session constructions: one fresh draw each. -/
def spec_two_session_tokens : Token × Token :=
  ((SessionManager_new_fresh 0).token, (SessionManager_new_fresh 1).token)

/-- C3: the claim that two no-argument session constructions generate
distinct tokens fails on the code: secrets.token_urlsafe(16) sits in the
def-site default of SessionManager.__init__ (and TokenManager.__init__),
so it is evaluated once at module load and every no-argument construction
reuses the same string, while the spec-side fresh-draw semantics yields
distinct tokens. -/
theorem c3_default_token_shared :
    py_two_session_tokens.1 = py_two_session_tokens.2 ∧
    TokenManager_new none = TokenManager_new none ∧
    spec_two_session_tokens.1 ≠ spec_two_session_tokens.2 := by
  exact ⟨rfl, rfl, by decide⟩

/-- C4: search is cache-first: when the cache already holds an entry for
(term, subject, code) - a positive result or the NoResults sentinel - the
search returns its sections from the cache, the state and the session are
untouched (in particular no scraper wake happens), and the external
resource path is never entered. -/
theorem c4_cache_first (st : SysState) (s : Session)
    (term subject cn : String) (now : Int) (signedOn : Bool)
    (scrape : ScrapeOutcome) (c : Course)
    (hhit : get_course_info st.courseDb term subject cn = some c) :
    handle_search_classes st s term subject cn now signedOn scrape =
      ⟨st, s, .ok c.get_sections, false⟩ := by
  unfold handle_search_classes
  rw [hhit]

def c4_course : Course :=
  { term := "1245", subject := "MATH", code := "239"
    sections := [{ section_type := "LEC", section_number := "001",
                   location := "MC 2065", instructor := "Prof X" }] }

def c4_state : SysState :=
  { known_users := [], driver_list := [], liveDrivers := [],
    nextDriver := 0, courseDb := [c4_course] }

def c4_session : Session :=
  { token := "tokB", scraper := none, active := false, heartbeat := false }

theorem c4_cache_first_witness :
    handle_search_classes c4_state c4_session "1245" "MATH" "239" 0 false
        .webFault =
      ⟨c4_state, c4_session, .ok c4_course.get_sections, false⟩ :=
  c4_cache_first c4_state c4_session "1245" "MATH" "239" 0 false .webFault
    c4_course (by decide)

def c5_state : SysState :=
  { known_users := [("alice", "tokA")]
    driver_list := []
    liveDrivers := []
    nextDriver := 0
    courseDb := [{ term := "1245", subject := "MATH", code := "239",
                   sections := [] }] }

def c5_session : Session :=
  { token := "tokA", scraper := none, active := false, heartbeat := false }

/-- C5 counterexample: with the NoResults sentinel for
("1245", "MATH", "239") already cached, a SEARCH makes no resource call
but is answered with a SUCCESS (1) envelope holding the empty section
mapping, not with the ERROR envelope "No results found" the claim
requires - here even with the resource faulting, showing resource
availability is irrelevant. -/
theorem c5_sentinel_counterexample :
    search_envelope (handle_search_classes c5_state c5_session
        "1245" "MATH" "239" 0 false .webFault) =
      some { status := 1, payload := .sections [] } ∧
    search_envelope (handle_search_classes c5_state c5_session
        "1245" "MATH" "239" 0 false .webFault) ≠
      some { status := -1, payload := .msg "No results found" } ∧
    (handle_search_classes c5_state c5_session
        "1245" "MATH" "239" 0 false .webFault).resource_called = false := by
  decide

/-- C5 (amended): for a (term, subject, code) previously stored as the
NoResults sentinel, a subsequent SEARCH makes no call to the external
resource regardless of resource availability, and is answered with a
SUCCESS envelope carrying the empty section mapping (the sentinel's empty
sections), not with an ERROR envelope. -/
theorem c5_sentinel_cached_success (st : SysState) (s : Session)
    (term subject cn : String) (now : Int) (signedOn : Bool)
    (scrape : ScrapeOutcome) (c : Course)
    (hhit : get_course_info st.courseDb term subject cn = some c)
    (hempty : c.sections = []) :
    (handle_search_classes st s term subject cn now signedOn
        scrape).resource_called = false ∧
    search_envelope (handle_search_classes st s term subject cn now signedOn
        scrape) = some { status := 1, payload := .sections [] } := by
  unfold handle_search_classes
  rw [hhit]
  refine ⟨rfl, ?_⟩
  unfold search_envelope
  dsimp only
  rw [Course.get_sections, hempty]
  rfl

theorem c5_sentinel_cached_success_witness :
    (handle_search_classes c5_state c5_session
        "1245" "MATH" "239" 7 true .noResults).resource_called = false ∧
    search_envelope (handle_search_classes c5_state c5_session
        "1245" "MATH" "239" 7 true .noResults) =
      some { status := 1, payload := .sections [] } :=
  c5_sentinel_cached_success c5_state c5_session "1245" "MATH" "239" 7 true
    .noResults { term := "1245", subject := "MATH", code := "239",
                 sections := [] } (by decide) rfl

/-- C6: reconnect with a token absent from the Token Registry (the
known-users map) fails with the unauthorized-token SecurityError and
touches nothing: the state - in particular the driver registry - and the
session are returned unchanged, so no Resource Handle is created. -/
theorem c6_unknown_token_reconnect (st : SysState) (s : Session)
    (hunk : ∀ p ∈ st.known_users, p.2 ≠ s.token) :
    reconnect_user st s = (st, s, .error (.securityErr "Invalid token")) := by
  unfold reconnect_user
  have hany : st.known_users.any (fun p => decide (p.2 = s.token)) = false := by
    rw [List.any_eq_false]
    intro p hp
    simpa using hunk p hp
  rw [hany]
  rfl

def c6_state : SysState :=
  { known_users := [("alice", "tokA")], driver_list := [("tokA", 0)],
    liveDrivers := [0], nextDriver := 1, courseDb := [] }

def c6_session : Session :=
  { token := "unknown", scraper := none, active := false, heartbeat := false }

theorem c6_unknown_token_reconnect_witness :
    reconnect_user c6_state c6_session =
      (c6_state, c6_session, .error (.securityErr "Invalid token")) :=
  c6_unknown_token_reconnect c6_state c6_session (by decide)

def c7_state : SysState :=
  { known_users := [("alice", "tokA")], driver_list := [("tokA", 7)],
    liveDrivers := [7], nextDriver := 8, courseDb := [] }

def c7_session : Session :=
  { token := "tokA", scraper := none, active := false, heartbeat := false }

/-- C7 counterexample: with live handle 7 registered for the token,
reconnect succeeds, but the following wake does not reuse handle 7: it
allocates fresh driver 8, overwrites the registration for the token and
leaves driver 7 alive but unregistered, refuting the claim's
reuse-of-the-existing-live-handle behaviour. -/
theorem c7_no_reuse_counterexample :
    (reconnect_user c7_state c7_session).2.2 = .ok "tokA" ∧
    (wake_scraper c7_state c7_session 0 true).2.1.scraper =
      some { token := "tokA", driverId := 8, last_accessed := 0 } ∧
    (wake_scraper c7_state c7_session 0 true).2.1.scraper ≠
      some { token := "tokA", driverId := 7, last_accessed := 0 } ∧
    dictGet "tokA" (wake_scraper c7_state c7_session 0 true).1.driver_list =
      some 8 ∧
    7 ∈ (wake_scraper c7_state c7_session 0 true).1.liveDrivers := by
  decide

/-- C7 (amended): for a token present in the Token Registry, reconnect
validates the token and succeeds immediately without touching any
Resource Handle; the handle is produced lazily by the next wake, which
always allocates a fresh driver - never one registered before, whose
registration it overwrites - then performs the liveness check: a lapsed
remote login makes the wake fail with the session-expired SecurityError
and evicts the handle, while a live one leaves the session ACTIVE with
the fresh handle registered for the token. -/
theorem c7_reconnect_lazy_fresh_wake (st : SysState) (s : Session) (now : Int)
    (hmem : ∃ p ∈ st.known_users, p.2 = s.token)
    (hinact : s.active = false)
    (hfresh : ∀ d ∈ st.driver_list.map Prod.snd, d < st.nextDriver) :
    reconnect_user st s = (st, s, .ok s.token) ∧
    st.nextDriver ∉ st.driver_list.map Prod.snd ∧
    (wake_scraper st s now true).2.1.scraper =
      some { token := s.token, driverId := st.nextDriver,
             last_accessed := now } ∧
    (wake_scraper st s now true).2.1.active = true ∧
    dictGet s.token (wake_scraper st s now true).1.driver_list =
      some st.nextDriver ∧
    (wake_scraper st s now false).2.2 =
      .error (.securityErr "Session expired, sign in again") ∧
    (wake_scraper st s now false).2.1.active = false ∧
    (wake_scraper st s now false).2.1.scraper = none ∧
    dictGet s.token (wake_scraper st s now false).1.driver_list = none := by
  have hany : st.known_users.any (fun p => decide (p.2 = s.token)) = true := by
    rw [List.any_eq_true]
    obtain ⟨p, hp, hp2⟩ := hmem
    exact ⟨p, hp, by simpa using hp2⟩
  rw [wake_scraper_signed_on hinact, wake_scraper_expired hinact]
  dsimp only
  rw [handle_sign_out_of_active rfl]
  refine ⟨?_, ?_, rfl, rfl, dictGet_dictInsert_self _ _ _, rfl, rfl, rfl, ?_⟩
  · unfold reconnect_user
    rw [hany]
    rfl
  · intro hmem2
    exact lt_irrefl st.nextDriver (hfresh st.nextDriver hmem2)
  · exact delete_session_get_none _ _

theorem c7_reconnect_lazy_fresh_wake_witness :
    reconnect_user c7_state c7_session =
      (c7_state, c7_session, .ok c7_session.token) ∧
    c7_state.nextDriver ∉ c7_state.driver_list.map Prod.snd ∧
    (wake_scraper c7_state c7_session 0 true).2.1.scraper =
      some { token := c7_session.token, driverId := c7_state.nextDriver,
             last_accessed := 0 } ∧
    (wake_scraper c7_state c7_session 0 true).2.1.active = true ∧
    dictGet c7_session.token
      (wake_scraper c7_state c7_session 0 true).1.driver_list =
      some c7_state.nextDriver ∧
    (wake_scraper c7_state c7_session 0 false).2.2 =
      .error (.securityErr "Session expired, sign in again") ∧
    (wake_scraper c7_state c7_session 0 false).2.1.active = false ∧
    (wake_scraper c7_state c7_session 0 false).2.1.scraper = none ∧
    dictGet c7_session.token
      (wake_scraper c7_state c7_session 0 false).1.driver_list = none :=
  c7_reconnect_lazy_fresh_wake c7_state c7_session 0 (by decide) rfl
    (by decide)

/-- C8: when create fails in primary authentication (bad credentials /
first-factor timeout) or in the second factor (challenge not completed
within the bounded window), sign-out runs: the half-created Resource
Handle is evicted - no driver stays registered for the session token -
and the session ends inactive with no scraper (TERMINATED), the failure
surfacing as a SecurityError. -/
theorem c8_failed_create_evicts (st : SysState) (s : Session) (user : String)
    (remember : Bool) (now : Int) (si : SignInResult) (duo : DuoResult)
    (hinact : s.active = false)
    (hnew : dictGet user st.known_users = none)
    (hfail : si = .failed ∨ (∃ cd, si = .duoRequired cd ∧ duo = .timedOut)) :
    (∃ m, (create_user st s user remember now si duo).2.2 =
        .error (.securityErr m)) ∧
    dictGet s.token
      (create_user st s user remember now si duo).1.driver_list = none ∧
    (create_user st s user remember now si duo).2.1.active = false ∧
    (create_user st s user remember now si duo).2.1.scraper = none := by
  unfold create_user
  rw [hnew]
  dsimp only
  rw [create_scraper_of_inactive hinact]
  dsimp only
  rcases hfail with hfail | ⟨cd, hsi, hduo⟩
  · subst hfail
    dsimp only
    rw [handle_sign_out_of_active rfl]
    exact ⟨⟨_, rfl⟩, delete_session_get_none _ _, rfl, rfl⟩
  · subst hsi
    subst hduo
    dsimp only
    rw [handle_sign_out_of_active rfl]
    exact ⟨⟨_, rfl⟩, delete_session_get_none _ _, rfl, rfl⟩

def c8_state : SysState :=
  { known_users := [], driver_list := [], liveDrivers := [],
    nextDriver := 0, courseDb := [] }

def c8_session : Session :=
  { token := "tokC", scraper := none, active := false, heartbeat := false }

theorem c8_failed_create_evicts_witness :
    (∃ m, (create_user c8_state c8_session "bob" true 0 .failed
        .passed).2.2 = .error (.securityErr m)) ∧
    dictGet c8_session.token
      (create_user c8_state c8_session "bob" true 0 .failed
        .passed).1.driver_list = none ∧
    (create_user c8_state c8_session "bob" true 0 .failed
        .passed).2.1.active = false ∧
    (create_user c8_state c8_session "bob" true 0 .failed
        .passed).2.1.scraper = none :=
  c8_failed_create_evicts c8_state c8_session "bob" true 0 .failed .passed
    rfl (by decide) (Or.inl rfl)

/-- C9: sign_out is idempotent: the second call is a no-op returning the
same state (handle_sign_out is a total function, so the second call
produces no error), and after the calls the Token Registry holds no
identity mapped to the session token, no driver stays registered for the
token, and the session is inactive with no scraper. -/
theorem c9_sign_out_idempotent (st : SysState) (s : Session)
    (hone : ∀ p ∈ st.known_users, ∀ q ∈ st.known_users,
      p.2 = s.token → q.2 = s.token → p = q)
    (hcoh : s.active = false →
      s.scraper = none ∧ dictGet s.token st.driver_list = none) :
    handle_sign_out (handle_sign_out st s).1 (handle_sign_out st s).2 =
      handle_sign_out st s ∧
    (∀ p ∈ (handle_sign_out st s).1.known_users, p.2 ≠ s.token) ∧
    dictGet s.token (handle_sign_out st s).1.driver_list = none ∧
    (handle_sign_out st s).2.scraper = none ∧
    (handle_sign_out st s).2.active = false := by
  cases hact : s.active with
  | true =>
      rw [handle_sign_out_of_active hact]
      rw [handle_sign_out_of_inactive rfl]
      dsimp only
      have hku : (delete_session
          { st with known_users := ku_sign_out st.known_users s.token }
          s.token).known_users = ku_sign_out st.known_users s.token :=
        delete_session_known_users _ s.token
      have hno : ∀ p ∈ (delete_session
          { st with known_users := ku_sign_out st.known_users s.token }
          s.token).known_users, p.2 ≠ s.token := by
        rw [hku]
        exact ku_sign_out_no_entry hone
      refine ⟨?_, hno, delete_session_get_none _ s.token, rfl, rfl⟩
      rw [ku_sign_out_of_no_entry hno]
  | false =>
      obtain ⟨hsc, hdg⟩ := hcoh hact
      rw [handle_sign_out_of_inactive hact]
      rw [handle_sign_out_of_inactive rfl]
      dsimp only
      have hno : ∀ p ∈ ku_sign_out st.known_users s.token, p.2 ≠ s.token :=
        ku_sign_out_no_entry hone
      refine ⟨?_, hno, hdg, hsc, rfl⟩
      rw [ku_sign_out_of_no_entry hno]

def c9_state : SysState :=
  { known_users := [("alice", "tokA")], driver_list := [("tokA", 0)],
    liveDrivers := [0], nextDriver := 1, courseDb := [] }

def c9_session : Session :=
  { token := "tokA"
    scraper := some { token := "tokA", driverId := 0, last_accessed := 0 }
    active := true
    heartbeat := true }

theorem c9_sign_out_idempotent_witness :
    handle_sign_out (handle_sign_out c9_state c9_session).1
        (handle_sign_out c9_state c9_session).2 =
      handle_sign_out c9_state c9_session ∧
    (∀ p ∈ (handle_sign_out c9_state c9_session).1.known_users,
      p.2 ≠ c9_session.token) ∧
    dictGet c9_session.token
      (handle_sign_out c9_state c9_session).1.driver_list = none ∧
    (handle_sign_out c9_state c9_session).2.scraper = none ∧
    (handle_sign_out c9_state c9_session).2.active = false :=
  c9_sign_out_idempotent c9_state c9_session (by decide) (by decide)

/-- C10: a search failing with the unexpected-resource-fault error (the
WebDriverException path, SessionException "Unexpected Error: Could not
search classes") leaves the course cache unchanged whatever branch is
taken, so the failure is not memoized; the explicit NoResults outcome is
the one that writes the negative sentinel entry. -/
theorem c10_fault_not_memoized (st : SysState) (s : Session)
    (term subject cn : String) (now : Int)
    (hinact : s.active = false)
    (hmiss : get_course_info st.courseDb term subject cn = none) :
    (∀ b : Bool, (handle_search_classes st s term subject cn now b
        .webFault).st.courseDb = st.courseDb) ∧
    (handle_search_classes st s term subject cn now true .webFault).outcome =
      .error (.sessionErr "Unexpected Error: Could not search classes") ∧
    (handle_search_classes st s term subject cn now true
        .noResults).st.courseDb =
      upsert_course_info st.courseDb
        { term := term, subject := subject, code := cn, sections := [] } := by
  refine ⟨?_, ?_, ?_⟩
  · intro b
    unfold handle_search_classes
    split
    · rfl
    · split
      · rename_i st1 s1 e heq
        have h1 : st1 = (wake_scraper st s now b).1 := by rw [heq]
        rw [h1, wake_scraper_courseDb]
      · rename_i st1 s1 u heq
        have h1 : st1 = (wake_scraper st s now b).1 := by rw [heq]
        dsimp only
        rw [h1, wake_scraper_courseDb]
  · rw [search_miss_fault hinact hmiss]
  · rw [search_miss_noResults hinact hmiss]

def c10_state : SysState :=
  { known_users := [], driver_list := [], liveDrivers := [],
    nextDriver := 0, courseDb := [] }

def c10_session : Session :=
  { token := "tokD", scraper := none, active := false, heartbeat := false }

theorem c10_fault_not_memoized_witness :
    (∀ b : Bool, (handle_search_classes c10_state c10_session "1245" "MATH"
        "239" 0 b .webFault).st.courseDb = c10_state.courseDb) ∧
    (handle_search_classes c10_state c10_session "1245" "MATH" "239" 0 true
        .webFault).outcome =
      .error (.sessionErr "Unexpected Error: Could not search classes") ∧
    (handle_search_classes c10_state c10_session "1245" "MATH" "239" 0 true
        .noResults).st.courseDb =
      upsert_course_info c10_state.courseDb
        { term := "1245", subject := "MATH", code := "239", sections := [] } :=
  c10_fault_not_memoized c10_state c10_session "1245" "MATH" "239" 0 rfl
    (by decide)

end QuestAPI
